import Mathlib

/-!
Verification of the numeric evaluation and data-preparation core of
`script/utils.py` (temporal-localization pipeline): the overlap
calculator `compute_overlap`, the retrieval metric `top_n_iou`, the
sequence padder `pad_labels`, and the class-weight estimator
`find_bce_weights`.

Real numbers (Python floats / torch float32 tensors) are modelled by `ℚ`;
all inputs exercised here are exact in both worlds.  A Python function
that can fall through without `return` (returning `None`) is modelled
with an `Option` result, `none` standing for the fallthrough.
-/

namespace GroundSentence

/-- Embedding of `compute_overlap(start_a, end_a, start_b, end_b)`
(utils.py lines 208-228).  The Python body is an `if` chain whose inner
branches can fall through without returning; the fallthrough (Python
`None`) is modelled as `none`.  `start_b <= end_a <= end_b` is Python's
chained comparison, i.e. a conjunction. -/
def compute_overlap (start_a end_a start_b end_b : ℚ) : Option ℚ :=
  if end_a < start_b ∨ end_b < start_a then some 0
  else if start_a ≤ start_b then
    if start_b ≤ end_a ∧ end_a ≤ end_b then some (end_a - start_b)
    else if end_b < end_a then some (end_b - start_b)
    else none
  else
    if start_a ≤ end_b ∧ end_b ≤ end_a then some (end_b - start_a)
    else if end_a < end_b then some (end_a - start_a)
    else none

/-- `end_times = (indices // K) * sample_rate / fps` (utils.py line 175),
for one flat index of the flattened (T, K) score matrix. -/
def end_time (K : ℕ) (sample_rate fps : ℤ) (idx : ℕ) : ℚ :=
  ((idx / K : ℕ) : ℚ) * (sample_rate : ℚ) / (fps : ℚ)

/-- `scale_nums = (indices % K) + 1;
start_times = end_times - (scale_nums * delta * sample_rate / fps)`
(utils.py lines 176-177). -/
def start_time (K : ℕ) (delta sample_rate fps : ℤ) (idx : ℕ) : ℚ :=
  end_time K sample_rate fps idx -
    (((idx % K + 1 : ℕ) : ℚ) * (delta : ℚ) * (sample_rate : ℚ) / (fps : ℚ))

/-- The ranking order used to model `torch.topk`: flat index `i` comes
before `j` when its score is strictly larger, ties broken by the smaller
flat index first (a deterministic, first-occurrence-wins tie-break; torch
only guarantees some deterministic order, unspecified on ties). -/
def scoreRank (scores : ℕ → ℚ) (i j : ℕ) : Prop :=
  scores j < scores i ∨ (scores i = scores j ∧ i ≤ j)

instance scoreRankDecidable (scores : ℕ → ℚ) : DecidableRel (scoreRank scores) :=
  fun i j =>
    inferInstanceAs (Decidable (scores j < scores i ∨ (scores i = scores j ∧ i ≤ j)))

/-- Model of `_, indices = torch.topk(y_pred.view(n_batch, -1), k=top_n, dim=-1)`
for one example (utils.py line 173): the flat indices `0 .. numel-1`
sorted by decreasing score (ties by increasing index), truncated to the
first `topN`.  torch raises when `topN > numel`; this model truncates
instead, and every property below only uses `topN ≤ numel`. -/
def topkIndices (numel topN : ℕ) (scores : ℕ → ℚ) : List ℕ :=
  (List.insertionSort (scoreRank scores) (List.range numel)).take topN

/-- `y_pred.view(n_batch, -1)` row-major flattening: flat index `idx` of
example `n` reads cell `(t, k) = (idx / K, idx % K)`. -/
def flatScores (K : ℕ) (y : ℕ → ℕ → ℚ) : ℕ → ℚ :=
  fun idx => y (idx / K) (idx % K)

/-- `np.max` over a list of floats.  `np.max([])` raises in Python; the
`[]` case here returns a junk `0` and is never exercised: every property
using `list_max` keeps the list non-empty. -/
def list_max : List ℚ → ℚ
  | [] => 0
  | [x] => x
  | x :: y :: ys => max x (list_max (y :: ys))

/-- The overlaps of one example's `top_n` decoded candidate segments
against its ground truth segment (utils.py lines 182-184):
`compute_overlap(start_time, end_time, gold_start, gold_end)` per
selected flat index.  `compute_overlap` never actually returns `None`
(proved below as `compute_overlap_total`), so `getD 0` is never taken on
the `none` branch. -/
def example_overlaps (T K topN : ℕ) (scores : ℕ → ℚ) (delta sample_rate fps : ℤ)
    (gold_start gold_end : ℚ) : List ℚ :=
  (topkIndices (T * K) topN scores).map fun idx =>
    (compute_overlap (start_time K delta sample_rate fps idx)
      (end_time K sample_rate fps idx) gold_start gold_end).getD 0

/-- `max_overlap = np.max([...])` for one example (utils.py line 182). -/
def example_max_overlap (T K topN : ℕ) (scores : ℕ → ℚ) (delta sample_rate fps : ℤ)
    (gold_start gold_end : ℚ) : ℚ :=
  list_max (example_overlaps T K topN scores delta sample_rate fps gold_start gold_end)

/-- `int(max_overlap > threshold)`, one example's contribution to the
score (utils.py line 185). -/
def example_score (threshold : ℚ) (T K topN : ℕ) (scores : ℕ → ℚ)
    (delta sample_rate fps : ℤ) (gold_start gold_end : ℚ) : ℕ :=
  if threshold < example_max_overlap T K topN scores delta sample_rate fps gold_start gold_end
  then 1 else 0

/-- Embedding of `top_n_iou(y_pred, gold_start_times, gold_end_times, args, fps, sample_rate)`
(utils.py lines 159-187).  `y_pred n t k` is the score tensor entry
(n, t, k); `delta = int(args['--delta'])`,
`threshold = float(args['--threshold'])`,
`topN = int(args['--top-n-eval'])`.  The returned score accumulates
`int(max_overlap > threshold)` over the batch. -/
def top_n_iou (n_batch T K : ℕ) (y_pred : ℕ → ℕ → ℕ → ℚ)
    (gold_start gold_end : ℕ → ℚ) (delta : ℤ) (threshold : ℚ) (topN : ℕ)
    (fps sample_rate : ℤ) : ℕ :=
  ((List.range n_batch).map fun i =>
    example_score threshold T K topN (flatScores K (y_pred i)) delta sample_rate fps
      (gold_start i) (gold_end i)).sum

/-- `np.max` over a list of natural numbers (the label lengths in
`pad_labels`); for a non-empty list `foldr max 0` is exactly the maximum. -/
def natmax (l : List ℕ) : ℕ := l.foldr max 0

/-- Embedding of `pad_labels(labels)` (utils.py lines 46-60).  A label is
a (T_i, K) 0/1 tensor, modelled as a list of T_i rows of width K.
`max_len = np.max([label.shape[0] for label in labels])`,
`K = labels[0].shape[1]`, output starts as `torch.zeros [N, max_len, K]`
and row block `[i, :T_i, :]` is overwritten with `labels[i]`; that result
is the label followed by `max_len - T_i` zero rows. -/
def pad_labels (labels : List (List (List ℚ))) : List (List (List ℚ)) :=
  labels.map fun label =>
    label ++ List.replicate (natmax (labels.map List.length) - label.length)
      (List.replicate ((labels.headD []).headD []).length 0)

/-- A dataset as consumed by `find_bce_weights`: `dataset.name` and, for
each `i`, the label tensor of `dataset[i]` (third component of the
triple), modelled as a list of T_i rows of width K. -/
structure Dataset where
  name : String
  labels : List (List (List ℚ))

/-- The cache file name `'w0_{}_{}.pt'.format(K, dataset.name)`
(utils.py lines 133, 148, 154). -/
def w0_key (K : ℕ) (name : String) : String :=
  "w0_" ++ toString K ++ "_" ++ name ++ ".pt"

/-- Column sum `torch.sum(label, dim=0)` at class `k`. -/
def colSum (label : List (List ℚ)) (k : ℕ) : ℚ :=
  (label.map fun row => row.getD k 0).sum

/-- The accumulator `w0` after the dataset loop of `find_bce_weights`
(utils.py lines 140-145): starting from `torch.zeros [K]`, each example
adds `T - torch.sum(label, dim=0)` elementwise, so entry `k` ends as the
sum over examples of `T_i - colSum label_i k`.  Assumes every label has
width K (a width mismatch raises inside torch). -/
def accum_w0 (K : ℕ) (labels : List (List (List ℚ))) : List ℚ :=
  (List.range K).map fun k =>
    (labels.map fun label => (label.length : ℚ) - colSum label k).sum

/-- The accumulator `time_steps` after the dataset loop (utils.py
lines 138, 143): the sum of the labels' time dimensions. -/
def total_time_steps (labels : List (List (List ℚ))) : ℕ :=
  (labels.map List.length).sum

/-- Result of one call to `find_bce_weights`: the returned pair
`(w0, 1 - w0)`, the cache (file system) state after the call, and how
many full dataset scans the call performed. -/
structure BceOut where
  w0 : List ℚ
  w1 : List ℚ
  cache : String → Option (List ℚ)
  dataset_iterations : ℕ

/-- Embedding of `find_bce_weights(dataset, K, device)` (utils.py lines
129-156).  The file system holding the `torch.save`d vectors is passed
explicitly as `cache`; `os.path.exists` is `cache key ≠ none`.  On a
miss the function scans the dataset once, divides the accumulator by
`time_steps` elementwise, saves `w0` under the key and returns
`(w0, 1 - w0)`; on a hit it loads the stored vector unchanged — with no
length or shape check — and returns `(w0, 1 - w0)` without touching the
dataset.  Rational division by zero is `0` here, standing in for torch's
NaN/Inf when `time_steps = 0` (the code has no check either way). -/
def find_bce_weights (ds : Dataset) (K : ℕ) (cache : String → Option (List ℚ)) :
    BceOut :=
  match cache (w0_key K ds.name) with
  | none =>
      let w0 := (accum_w0 K ds.labels).map
        fun x => x / (total_time_steps ds.labels : ℚ)
      { w0 := w0
        w1 := w0.map fun x => 1 - x
        cache := fun key => if key = w0_key K ds.name then some w0 else cache key
        dataset_iterations := 1 }
  | some w0 =>
      { w0 := w0
        w1 := w0.map fun x => 1 - x
        cache := cache
        dataset_iterations := 0 }

/-- Concrete score tensor for the retrieval-metric scenario: N=1, T=4,
K=2, unique maximum at cell (t=3, k=0) (flat index 6). -/
def yC2 : ℕ → ℕ → ℕ → ℚ :=
  fun _ t k => if t = 3 ∧ k = 0 then 1 else 0

/-- Concrete two-example batch for the padding property: shapes (1, 2)
and (2, 2). -/
def batchC5 : List (List (List ℚ)) :=
  [[[1, 2]], [[3, 4], [5, 6]]]

/-- An empty dataset (zero examples), the degenerate input of the
weight estimator. -/
def dsEmpty : Dataset := { name := "tacos", labels := [] }

/-- A one-example dataset with K = 2 classes, two time steps. -/
def dsC8 : Dataset := { name := "tacos", labels := [[[1, 0], [0, 0]]] }

/-- A cache holding, under the key for K = 2 and dataset "tacos", a
corrupt weight vector of length 1 ≠ K. -/
def cacheC8 : String → Option (List ℚ) :=
  fun key => if key = w0_key 2 "tacos" then some [9] else none

/-! ### Helper lemmas -/

/-- `compute_overlap` never actually falls through: every input reaches a
`return`, even without the `start ≤ end` preconditions (the fallthrough
branches are unreachable because the disjoint case was already returned). -/
theorem compute_overlap_total (start_a end_a start_b end_b : ℚ) :
    (compute_overlap start_a end_a start_b end_b).isSome = true := by
  unfold compute_overlap
  split_ifs with h1 h2 h3 h4 h5 h6 <;> try rfl
  · exfalso
    push_neg at h1 h3 h4
    exact absurd (h3 h1.1) (not_lt.mpr h4)
  · exfalso
    push_neg at h1 h5 h6
    exact absurd (h5 h1.2) (not_lt.mpr h6)

/-- Every member of a list is at most its `np.max`. -/
theorem le_list_max : ∀ (l : List ℚ), ∀ x ∈ l, x ≤ list_max l
  | [], x, hx => absurd hx (List.not_mem_nil x)
  | [y], x, hx => by
      rw [List.mem_singleton] at hx
      subst hx
      simp [list_max]
  | y :: z :: zs, x, hx => by
      show x ≤ max y (list_max (z :: zs))
      rcases List.mem_cons.mp hx with rfl | hx'
      · exact le_max_left _ _
      · exact le_trans (le_list_max (z :: zs) x hx') (le_max_right _ _)

/-- The `np.max` of a non-empty list is one of its members. -/
theorem list_max_mem : ∀ (l : List ℚ), l ≠ [] → list_max l ∈ l
  | [], h => absurd rfl h
  | [y], _ => by simp [list_max]
  | y :: z :: zs, _ => by
      show max y (list_max (z :: zs)) ∈ y :: z :: zs
      rcases max_choice y (list_max (z :: zs)) with h | h
      · rw [h]
        exact List.mem_cons_self _ _
      · rw [h]
        exact List.mem_cons_of_mem _ (list_max_mem (z :: zs) (by simp))

/-- `np.max` is monotone under inclusion of non-empty lists. -/
theorem list_max_le_of_subset (l₁ l₂ : List ℚ) (h : l₁ ≠ []) (hs : l₁ ⊆ l₂) :
    list_max l₁ ≤ list_max l₂ :=
  le_list_max l₂ _ (hs (list_max_mem l₁ h))

/-- Every member of a list of naturals is at most its `np.max`. -/
theorem le_natmax : ∀ (l : List ℕ), ∀ x ∈ l, x ≤ natmax l := by
  intro l
  induction l with
  | nil => exact fun x hx => absurd hx (List.not_mem_nil x)
  | cons y ys ih =>
      intro x hx
      show x ≤ max y (natmax ys)
      rcases List.mem_cons.mp hx with rfl | hx'
      · exact le_max_left _ _
      · exact le_trans (ih x hx') (le_max_right _ _)

/-- Selecting fewer top cells selects a subset of the cells: `topk` with
`n₁ ≤ n₂` returns a sublist of `topk` with `n₂` (prefixes of the same
deterministically sorted index list). -/
theorem topkIndices_subset (numel : ℕ) (scores : ℕ → ℚ) (n₁ n₂ : ℕ) (h : n₁ ≤ n₂) :
    topkIndices numel n₁ scores ⊆ topkIndices numel n₂ scores := by
  unfold topkIndices
  intro x hx
  have htk : (List.insertionSort (scoreRank scores) (List.range numel)).take n₁ =
      ((List.insertionSort (scoreRank scores) (List.range numel)).take n₂).take n₁ := by
    rw [List.take_take, min_eq_left h]
  rw [htk] at hx
  exact List.take_subset _ _ hx

/-- The number of candidate overlaps of one example is
`min topN (T * K)` (torch itself rejects `topN > T * K`). -/
theorem length_example_overlaps (T K topN : ℕ) (scores : ℕ → ℚ)
    (delta sample_rate fps : ℤ) (gold_start gold_end : ℚ) :
    (example_overlaps T K topN scores delta sample_rate fps gold_start gold_end).length =
      min topN (T * K) := by
  unfold example_overlaps topkIndices
  rw [List.length_map, List.length_take, List.length_insertionSort, List.length_range]

/-- With `1 ≤ topN ≤ T * K` the candidate list of an example is non-empty. -/
theorem example_overlaps_ne_nil (T K topN : ℕ) (scores : ℕ → ℚ)
    (delta sample_rate fps : ℤ) (gold_start gold_end : ℚ)
    (h1 : 1 ≤ topN) (h2 : topN ≤ T * K) :
    example_overlaps T K topN scores delta sample_rate fps gold_start gold_end ≠ [] := by
  intro hnil
  have hlen := length_example_overlaps T K topN scores delta sample_rate fps gold_start gold_end
  rw [hnil, min_eq_left h2] at hlen
  simp at hlen
  omega

/-! ### Claim theorems -/

/-- C1: for intervals with `start ≤ end` on both sides, `compute_overlap`
returns 0 when they are disjoint (`end_a < start_b` or `end_b < start_a`)
and otherwise the length of their intersection,
`min(end_a, end_b) - max(start_a, start_b)`. -/
theorem compute_overlap_C1 (start_a end_a start_b end_b : ℚ)
    (ha : start_a ≤ end_a) (hb : start_b ≤ end_b) :
    compute_overlap start_a end_a start_b end_b =
      some (if end_a < start_b ∨ end_b < start_a then 0
            else min end_a end_b - max start_a start_b) := by
  unfold compute_overlap
  split_ifs with h1 h2 h3 h4 h5 h6
  · rfl
  · rw [min_eq_left h3.2, max_eq_right h2]
  · rw [min_eq_right (le_of_lt h4), max_eq_right h2]
  · exfalso
    push_neg at h1 h3 h4
    exact absurd (h3 h1.1) (not_lt.mpr h4)
  · rw [min_eq_right h5.2, max_eq_left (le_of_lt (not_le.mp h2))]
  · rw [min_eq_left (le_of_lt h6), max_eq_left (le_of_lt (not_le.mp h2))]
  · exfalso
    push_neg at h1 h5 h6
    exact absurd (h5 h1.2) (not_lt.mpr h6)

/-- Witness for C1 at the concrete intervals (0, 10) and (5, 15). -/
theorem compute_overlap_C1_witness :
    (0:ℚ) ≤ 10 ∧ (5:ℚ) ≤ 15 ∧
      compute_overlap 0 10 5 15 =
        some (if (10:ℚ) < 5 ∨ (15:ℚ) < 0 then 0 else min (10:ℚ) 15 - max (0:ℚ) 5) :=
  ⟨by decide, by decide, compute_overlap_C1 0 10 5 15 (by decide) (by decide)⟩

/-- C9: for intervals with `start ≤ end` on both sides, `compute_overlap`
is total: every ordering of the four endpoints reaches a branch that
returns a numeric value (the Python fallthrough, `none` here, is never
taken). -/
theorem compute_overlap_C9 (start_a end_a start_b end_b : ℚ)
    (ha : start_a ≤ end_a) (hb : start_b ≤ end_b) :
    (compute_overlap start_a end_a start_b end_b).isSome = true :=
  compute_overlap_total start_a end_a start_b end_b

/-- Witness for C9 at the concrete disjoint intervals (0, 5) and (10, 15). -/
theorem compute_overlap_C9_witness :
    (0:ℚ) ≤ 5 ∧ (10:ℚ) ≤ 15 ∧ (compute_overlap 0 5 10 15).isSome = true :=
  ⟨by decide, by decide, compute_overlap_C9 0 5 10 15 (by decide) (by decide)⟩

/-- C10 counterexample: at the concrete configuration T = 1, K = 1,
delta = 5, sample_rate = 1, fps = 1, the only cell (flat index 0) has
its scale window (5 time units) exceed the available time
(`end_time = 0`), yet the decoded candidate is (-5, 0), which is NOT
inverted — `start_time < end_time` — refuting the claim that a scale
window exceeding the available time yields candidates with
`start_time > end_time`; the out-of-range candidate is passed to
`compute_overlap` unclamped and yields overlap 0 against ground
truth (0, 10). -/
theorem retrieval_C10_counterexample :
    start_time 1 5 1 1 0 = -5 ∧ end_time 1 1 1 0 = 0 ∧
    start_time 1 5 1 1 0 < end_time 1 1 1 0 ∧
    compute_overlap (start_time 1 5 1 1 0) (end_time 1 1 1 0) 0 10 = some 0 := by
  refine ⟨?_, ?_, ?_, ?_⟩ <;> norm_num [start_time, end_time, compute_overlap]

/-- C10 amended: `compute_overlap` applied to an inverted first interval
(5, 3) against (0, 10) returns `end_a - start_a = -2 < 0`, so
nonnegativity of the result needs the `start ≤ end` precondition; but in
the Retrieval Metric Engine a decoded candidate always satisfies
`start_time ≤ end_time` whenever delta, sample_rate are nonnegative and
fps is positive — a scale window exceeding the available time makes
`start_time` negative, not larger than `end_time`. -/
theorem retrieval_C10_amended (delta sample_rate fps : ℤ)
    (hd : 0 ≤ delta) (hs : 0 ≤ sample_rate) (hf : 0 < fps) (K idx : ℕ) :
    compute_overlap 5 3 0 10 = some (3 - 5) ∧ ((3:ℚ) - 5 < 0) ∧
    start_time K delta sample_rate fps idx ≤ end_time K sample_rate fps idx := by
  refine ⟨by norm_num [compute_overlap], by norm_num, ?_⟩
  unfold start_time
  have hdq : (0:ℚ) ≤ (delta : ℚ) := by exact_mod_cast hd
  have hsq : (0:ℚ) ≤ (sample_rate : ℚ) := by exact_mod_cast hs
  have hfq : (0:ℚ) ≤ (fps : ℚ) := by
    have := le_of_lt hf
    exact_mod_cast this
  have hnum : (0:ℚ) ≤ ((idx % K + 1 : ℕ) : ℚ) * (delta : ℚ) * (sample_rate : ℚ) :=
    mul_nonneg (mul_nonneg (Nat.cast_nonneg _) hdq) hsq
  have hterm : (0:ℚ) ≤ ((idx % K + 1 : ℕ) : ℚ) * (delta : ℚ) * (sample_rate : ℚ) / (fps : ℚ) :=
    div_nonneg hnum hfq
  linarith

/-- Witness for the amended C10 at delta = 1, sample_rate = 1, fps = 1,
K = 2, flat index 0. -/
theorem retrieval_C10_amended_witness :
    (0:ℤ) ≤ 1 ∧ (0:ℤ) < 1 ∧
    (compute_overlap 5 3 0 10 = some (3 - 5) ∧ ((3:ℚ) - 5 < 0) ∧
      start_time 2 1 1 1 0 ≤ end_time 2 1 1 0) :=
  ⟨by decide, by decide, retrieval_C10_amended 1 1 1 (by decide) (by decide) (by decide) 2 0⟩

/-- C2: in the concrete scenario N = 1, T = 4, K = 2, frame_rate = 1,
sample_stride = 1, window_scale_unit = 1, score tensor with unique
maximum at (t = 3, k = 0) (flat index 6), ground truth (2, 3),
top_n = 1, overlap_threshold = 0.5: the engine selects flat index 6,
decodes end_time = 3 and start_time = 2, computes overlap 1 > 0.5 and
returns hit_count = 1. -/
theorem top_n_iou_C2 :
    topkIndices (4 * 2) 1 (flatScores 2 (yC2 0)) = [6] ∧
    end_time 2 1 1 6 = 3 ∧ start_time 2 1 1 1 6 = 2 ∧
    compute_overlap 2 3 2 3 = some 1 ∧ ((1:ℚ)/2 < 1) ∧
    top_n_iou 1 4 2 yC2 (fun _ => 2) (fun _ => 3) 1 (1/2) 1 1 1 = 1 := by
  refine ⟨by decide, by norm_num [end_time], by norm_num [start_time, end_time],
    by norm_num [compute_overlap], by norm_num, ?_⟩
  norm_num [top_n_iou, example_score, example_max_overlap, example_overlaps, topkIndices,
    flatScores, scoreRank, list_max, compute_overlap, start_time, end_time, yC2,
    List.insertionSort, List.orderedInsert, List.range_succ]

/-- C3: the score returned by `top_n_iou` is the sum over the batch of
the per-example contributions, and example `i` contributes 1 iff the
maximum overlap over its `top_n` candidates is strictly greater than the
threshold; a maximum overlap exactly equal to the threshold contributes
0, and (given `1 ≤ topN ≤ T * K`) that maximum is attained among the
example's candidate overlaps. -/
theorem example_score_C3 (n_batch T K : ℕ) (y_pred : ℕ → ℕ → ℕ → ℚ)
    (gold_start gold_end : ℕ → ℚ) (delta : ℤ) (threshold : ℚ) (topN : ℕ)
    (fps sample_rate : ℤ) (i : ℕ) (h1 : 1 ≤ topN) (h2 : topN ≤ T * K) :
    top_n_iou n_batch T K y_pred gold_start gold_end delta threshold topN fps sample_rate =
      ((List.range n_batch).map fun j =>
        example_score threshold T K topN (flatScores K (y_pred j)) delta sample_rate fps
          (gold_start j) (gold_end j)).sum ∧
    (example_score threshold T K topN (flatScores K (y_pred i)) delta sample_rate fps
        (gold_start i) (gold_end i) = 1 ↔
      threshold < example_max_overlap T K topN (flatScores K (y_pred i)) delta sample_rate fps
        (gold_start i) (gold_end i)) ∧
    (example_max_overlap T K topN (flatScores K (y_pred i)) delta sample_rate fps
        (gold_start i) (gold_end i) = threshold →
      example_score threshold T K topN (flatScores K (y_pred i)) delta sample_rate fps
        (gold_start i) (gold_end i) = 0) ∧
    example_max_overlap T K topN (flatScores K (y_pred i)) delta sample_rate fps
        (gold_start i) (gold_end i) ∈
      example_overlaps T K topN (flatScores K (y_pred i)) delta sample_rate fps
        (gold_start i) (gold_end i) := by
  refine ⟨rfl, ?_, ?_, ?_⟩
  · unfold example_score
    split_ifs with h
    · simp [h]
    · simp [h]
  · intro hEq
    unfold example_score
    rw [hEq]
    simp
  · exact list_max_mem _
      (example_overlaps_ne_nil T K topN (flatScores K (y_pred i)) delta sample_rate fps
        (gold_start i) (gold_end i) h1 h2)

/-- Witness for C3 at the concrete scenario of C2 (example 0). -/
theorem example_score_C3_witness :
    (1:ℕ) ≤ 1 ∧ (1:ℕ) ≤ 4 * 2 ∧
    (top_n_iou 1 4 2 yC2 (fun _ => 2) (fun _ => 3) 1 (1/2) 1 1 1 =
      ((List.range 1).map fun j =>
        example_score (1/2) 4 2 1 (flatScores 2 (yC2 j)) 1 1 1
          ((fun _ => (2:ℚ)) j) ((fun _ => (3:ℚ)) j)).sum ∧
    (example_score (1/2) 4 2 1 (flatScores 2 (yC2 0)) 1 1 1
        ((fun _ => (2:ℚ)) 0) ((fun _ => (3:ℚ)) 0) = 1 ↔
      (1:ℚ)/2 < example_max_overlap 4 2 1 (flatScores 2 (yC2 0)) 1 1 1
        ((fun _ => (2:ℚ)) 0) ((fun _ => (3:ℚ)) 0)) ∧
    (example_max_overlap 4 2 1 (flatScores 2 (yC2 0)) 1 1 1
        ((fun _ => (2:ℚ)) 0) ((fun _ => (3:ℚ)) 0) = 1/2 →
      example_score (1/2) 4 2 1 (flatScores 2 (yC2 0)) 1 1 1
        ((fun _ => (2:ℚ)) 0) ((fun _ => (3:ℚ)) 0) = 0) ∧
    example_max_overlap 4 2 1 (flatScores 2 (yC2 0)) 1 1 1
        ((fun _ => (2:ℚ)) 0) ((fun _ => (3:ℚ)) 0) ∈
      example_overlaps 4 2 1 (flatScores 2 (yC2 0)) 1 1 1
        ((fun _ => (2:ℚ)) 0) ((fun _ => (3:ℚ)) 0)) :=
  ⟨by decide, by decide,
    example_score_C3 1 4 2 yC2 (fun _ => 2) (fun _ => 3) 1 (1/2) 1 1 1 0
      (by decide) (by decide)⟩

/-- C4: with the score tensor, ground truth and configuration fixed,
increasing `top_n` from `n₁` to `n₂` (both at least 1 and at most
`T * K`) never decreases example `n`'s maximum overlap over the selected
candidates, and never turns a hit into a miss. -/
theorem top_n_monotone_C4 (T K : ℕ) (y_pred : ℕ → ℕ → ℕ → ℚ) (n : ℕ)
    (delta sample_rate fps : ℤ) (gold_start gold_end threshold : ℚ) (n₁ n₂ : ℕ)
    (h0 : 1 ≤ n₁) (h12 : n₁ ≤ n₂) (h2 : n₂ ≤ T * K) :
    example_max_overlap T K n₁ (flatScores K (y_pred n)) delta sample_rate fps
        gold_start gold_end ≤
      example_max_overlap T K n₂ (flatScores K (y_pred n)) delta sample_rate fps
        gold_start gold_end ∧
    (example_score threshold T K n₁ (flatScores K (y_pred n)) delta sample_rate fps
        gold_start gold_end = 1 →
      example_score threshold T K n₂ (flatScores K (y_pred n)) delta sample_rate fps
        gold_start gold_end = 1) := by
  have hsub : example_overlaps T K n₁ (flatScores K (y_pred n)) delta sample_rate fps
      gold_start gold_end ⊆
      example_overlaps T K n₂ (flatScores K (y_pred n)) delta sample_rate fps
        gold_start gold_end := by
    unfold example_overlaps
    exact List.map_subset _ (topkIndices_subset (T * K) (flatScores K (y_pred n)) n₁ n₂ h12)
  have hne : example_overlaps T K n₁ (flatScores K (y_pred n)) delta sample_rate fps
      gold_start gold_end ≠ [] :=
    example_overlaps_ne_nil T K n₁ (flatScores K (y_pred n)) delta sample_rate fps
      gold_start gold_end h0 (le_trans h12 h2)
  have hmax : example_max_overlap T K n₁ (flatScores K (y_pred n)) delta sample_rate fps
      gold_start gold_end ≤
      example_max_overlap T K n₂ (flatScores K (y_pred n)) delta sample_rate fps
        gold_start gold_end :=
    list_max_le_of_subset _ _ hne hsub
  refine ⟨hmax, ?_⟩
  intro h
  unfold example_score at h ⊢
  split_ifs at h with h₁
  exact if_pos (lt_of_lt_of_le h₁ hmax)

/-- Witness for C4 at the concrete scenario of C2 with `top_n` increased
from 1 to 2. -/
theorem top_n_monotone_C4_witness :
    (1:ℕ) ≤ 1 ∧ (1:ℕ) ≤ 2 ∧ (2:ℕ) ≤ 4 * 2 ∧
    (example_max_overlap 4 2 1 (flatScores 2 (yC2 0)) 1 1 1 2 3 ≤
      example_max_overlap 4 2 2 (flatScores 2 (yC2 0)) 1 1 1 2 3 ∧
    (example_score (1/2) 4 2 1 (flatScores 2 (yC2 0)) 1 1 1 2 3 = 1 →
      example_score (1/2) 4 2 2 (flatScores 2 (yC2 0)) 1 1 1 2 3 = 1)) :=
  ⟨by decide, by decide, by decide,
    top_n_monotone_C4 4 2 yC2 0 1 1 1 2 3 (1/2) 1 2 (by decide) (by decide) (by decide)⟩

/-- The `i`-th padded label is the `i`-th input label followed by zero
rows up to the batch maximum length. -/
theorem pad_labels_getD (labels : List (List (List ℚ))) (i : ℕ) (hi : i < labels.length) :
    (pad_labels labels).getD i [] =
      labels.getD i [] ++ List.replicate
        (natmax (labels.map List.length) - (labels.getD i []).length)
        (List.replicate ((labels.headD []).headD []).length 0) := by
  have hi2 : i < (List.map (fun label => label ++ List.replicate
      (natmax (labels.map List.length) - label.length)
      (List.replicate ((labels.headD []).headD []).length 0)) labels).length := by
    rw [List.length_map]
    exact hi
  unfold pad_labels
  rw [List.getD_eq_getElem _ _ hi2, List.getElem_map, List.getD_eq_getElem _ _ hi]

/-- C5: for a non-empty batch of label sequences of shapes (T_i, K) with
a common K (taken from the first sequence), the padded output has one
entry per input in order, each of length `max_T` (the maximum T_i) with
rows of width K; entry `i` restricted to its first T_i rows is exactly
`labels[i]`, and the remaining `max_T - T_i` rows are all zero. -/
theorem pad_labels_C5 (labels : List (List (List ℚ))) (K : ℕ)
    (hne : labels ≠ [])
    (hK : ∀ l ∈ labels, ∀ row ∈ l, row.length = K)
    (hK0 : ((labels.headD []).headD []).length = K) :
    (pad_labels labels).length = labels.length ∧
    ∀ i, i < labels.length →
      ((pad_labels labels).getD i []).length = natmax (labels.map List.length) ∧
      ((pad_labels labels).getD i []).take (labels.getD i []).length = labels.getD i [] ∧
      ((pad_labels labels).getD i []).drop (labels.getD i []).length =
        List.replicate (natmax (labels.map List.length) - (labels.getD i []).length)
          (List.replicate K 0) ∧
      ∀ row ∈ (pad_labels labels).getD i [], row.length = K := by
  constructor
  · unfold pad_labels
    exact List.length_map _ _
  · intro i hi
    have hpad := pad_labels_getD labels i hi
    rw [hK0] at hpad
    have hmem : labels.getD i [] ∈ labels := by
      rw [List.getD_eq_getElem _ _ hi]
      exact List.getElem_mem hi
    have hlen_le : (labels.getD i []).length ≤ natmax (labels.map List.length) :=
      le_natmax _ _ (List.mem_map_of_mem List.length hmem)
    refine ⟨?_, ?_, ?_, ?_⟩
    · rw [hpad, List.length_append, List.length_replicate]
      omega
    · rw [hpad, List.take_left]
    · rw [hpad, List.drop_left]
    · intro row hrow
      rw [hpad] at hrow
      rcases List.mem_append.mp hrow with hrow' | hrow'
      · exact hK _ hmem row hrow'
      · rw [List.eq_of_mem_replicate hrow']
        exact List.length_replicate K 0

/-- Witness for C5 at the concrete batch [[[1,2]], [[3,4],[5,6]]] with
K = 2 (shapes (1, 2) and (2, 2)). -/
theorem pad_labels_C5_witness :
    batchC5 ≠ [] ∧ (∀ l ∈ batchC5, ∀ row ∈ l, row.length = 2) ∧
    ((batchC5.headD []).headD []).length = 2 ∧
    ((pad_labels batchC5).length = batchC5.length ∧
    ∀ i, i < batchC5.length →
      ((pad_labels batchC5).getD i []).length = natmax (batchC5.map List.length) ∧
      ((pad_labels batchC5).getD i []).take (batchC5.getD i []).length = batchC5.getD i [] ∧
      ((pad_labels batchC5).getD i []).drop (batchC5.getD i []).length =
        List.replicate (natmax (batchC5.map List.length) - (batchC5.getD i []).length)
          (List.replicate 2 0) ∧
      ∀ row ∈ (pad_labels batchC5).getD i [], row.length = 2) :=
  ⟨by decide, by decide, by decide,
    pad_labels_C5 batchC5 2 (by decide) (by decide) (by decide)⟩

/-- C6: a second call to the weight estimator with the cache state left
by the first call returns the same (w0, w1) pair and performs no dataset
scan (the cached path does not iterate the dataset). -/
theorem find_bce_weights_C6 (ds : Dataset) (K : ℕ) (cache : String → Option (List ℚ)) :
    (find_bce_weights ds K ((find_bce_weights ds K cache).cache)).w0 =
      (find_bce_weights ds K cache).w0 ∧
    (find_bce_weights ds K ((find_bce_weights ds K cache).cache)).w1 =
      (find_bce_weights ds K cache).w1 ∧
    (find_bce_weights ds K ((find_bce_weights ds K cache).cache)).dataset_iterations = 0 := by
  cases h : cache (w0_key K ds.name) with
  | none =>
      unfold find_bce_weights
      rw [h]
      simp
  | some w0 =>
      unfold find_bce_weights
      rw [h]
      simp [h]

/-- C7 evidence (code bug): on the empty dataset the accumulated
`time_steps` is 0, yet `find_bce_weights` raises no error: it runs the
compute path (one scan), divides the zero accumulator elementwise by
zero — NaN in torch, modelled by ℚ's division-by-zero junk value 0 —
and returns and caches the degenerate vector silently. -/
theorem find_bce_weights_C7 :
    total_time_steps dsEmpty.labels = 0 ∧
    (find_bce_weights dsEmpty 2 (fun _ => none)).dataset_iterations = 1 ∧
    (find_bce_weights dsEmpty 2 (fun _ => none)).w0 = [0, 0] ∧
    (find_bce_weights dsEmpty 2 (fun _ => none)).cache (w0_key 2 "tacos") = some [0, 0] := by
  refine ⟨rfl, ?_, ?_, ?_⟩ <;>
    norm_num [find_bce_weights, dsEmpty, total_time_steps, accum_w0, colSum, w0_key,
      List.range_succ]

/-- C8 evidence (code bug): with a cached vector of length 1 ≠ K = 2
under the right key, `find_bce_weights` hits the cache, performs no
dataset scan, leaves the corrupt entry in place and returns the
mismatched vector [9] unchecked. -/
theorem find_bce_weights_C8 :
    ((find_bce_weights dsC8 2 cacheC8).w0).length = 1 ∧ (1:ℕ) ≠ 2 ∧
    (find_bce_weights dsC8 2 cacheC8).w0 = [9] ∧
    (find_bce_weights dsC8 2 cacheC8).dataset_iterations = 0 ∧
    (find_bce_weights dsC8 2 cacheC8).cache = cacheC8 := by
  refine ⟨?_, by decide, ?_, ?_, ?_⟩ <;>
    norm_num [find_bce_weights, dsC8, cacheC8, w0_key]

end GroundSentence
